import Mathlib

/-!
Shallow embedding of the PatientHero repository (Hjhirp/PatientHero) in Lean 4,
for checking the design specification against the code.

The embedding covers:
* `process_clinics_parallel.py`: `ClinicProcessor.clean_appointment_slots`,
  `ClinicProcessor.validate_and_format_time`,
  `ClinicProcessor.generate_realistic_appointment_slots`,
  `ClinicProcessor.extract_appointment_slots` (stage chain over stage oracles),
  `ClinicProcessor.process_clinic` and `process_clinics_parallel`
  (per-clinic outcomes supplied by an environment oracle).
* `api_server.py`: `GuardrailValidator.validate_user_input`,
  `GuardrailValidator.validate_ai_response`, and the `/api/chat` endpoint
  (`chat_endpoint`), with the CrewAI turn processing supplied as an oracle.
* `crewai_agents/main.py`: `PatientData.is_basic_info_complete`,
  `_extract_and_update_patient_data` (LLM extraction result as an oracle) and
  `_simple_data_extraction`.
* `crewai_agents/exa_helper.py`: `ExaHelper._exa_check_insurance`,
  `ExaHelper._guess_institution_type`, `ExaHelper.process_patient_from_main`
  (search results and answer-API outcomes as oracles).

Python dicts become records, `None`/absent values become `Option`, Python
truthiness of an optional string is `optTruthy`.  The pieces of the `re`
module that the code uses are given an executable backtracking engine below;
character classes are modelled over ASCII (the repository only ever feeds
ASCII keywords and user text to them).
-/

namespace PatientHero

/-! ### Characters and strings -/

/-- ASCII model of Python's regex class `\w` (`[A-Za-z0-9_]`). -/
def isWordChar (c : Char) : Bool :=
  c.isAlpha || c.isDigit || c = '_'

/-- ASCII model of Python's regex class `\s` (space, tab, newline, return,
vertical tab, form feed). -/
def isSpaceChar (c : Char) : Bool :=
  c = ' ' || c = '\t' || c = '\n' || c = '\r' || c = '\x0b' || c = '\x0c'

/-- Python's regex class `\d` (`[0-9]`). -/
def isDigitChar (c : Char) : Bool :=
  c.isDigit

/-- Regex class `[A-Za-z]`. -/
def isAsciiAlpha (c : Char) : Bool :=
  c.isAlpha

/-- Python `str.lower()` (ASCII model). -/
def toLowerStr (s : String) : String :=
  ⟨s.data.map Char.toLower⟩

/-- `needle` occurs as a contiguous sublist of `haystack`
(Python's `needle in haystack` on strings). -/
def containsSub (needle haystack : List Char) : Bool :=
  match haystack with
  | [] => needle.isEmpty
  | _ :: t => needle.isPrefixOf haystack || containsSub needle t

/-- Python's `str in str` (substring test). -/
def strIn (needle haystack : String) : Bool :=
  containsSub needle.data haystack.data

/-- Python's `str.endswith`. -/
def strEndsWith (s suffix : String) : Bool :=
  suffix.data.reverse.isPrefixOf s.data.reverse

/-- Python's `str.strip()` with no argument: remove whitespace from both
ends (ASCII whitespace model). -/
def stripChars (l : List Char) : List Char :=
  ((l.dropWhile isSpaceChar).reverse.dropWhile isSpaceChar).reverse

/-- Python's `str.strip()` on `String`. -/
def stripStr (s : String) : String :=
  ⟨stripChars s.data⟩

/-! ### A small backtracking regex engine

Just enough of Python's `re` for the patterns that appear in the repository:
character classes, literals, concatenation, alternation (preferring the left
branch), greedy counted repetition of a character class (which covers every
`*`, `+`, `?`, `{m}`, `{m,}`, `{m,n}` in the source, all of which repeat a
single-character class), and the zero-width word boundary `\b`.  Matching is
existence-of-a-match with Python's backtracking preference order, so
`searchGroup0` returns exactly `re.search(...).group()`.
-/

inductive Regex where
  | eps : Regex
  | cls (p : Char → Bool) : Regex
  | cat (r s : Regex) : Regex
  | alt (r s : Regex) : Regex
  | reps (p : Char → Bool) (lo : Nat) (hi : Option Nat) : Regex
  | wb : Regex

/-- Greedy matching of `lo`–`hi` repetitions of class `p`, continuing with
`k` (which receives the previous character and the remaining input). -/
def repsRun (p : Char → Bool) : Nat → Option Nat → Option Char → List Char →
    (Option Char → List Char → Option (List Char)) → Option (List Char)
  | lo, _, prev, [], k => if lo = 0 then k prev [] else none
  | lo, hi, prev, c :: cs, k =>
    let more : Option (List Char) :=
      match hi with
      | some 0 => none
      | _ =>
        if p c then repsRun p (lo - 1) (hi.map fun n => n - 1) (some c) cs k
        else none
    more.orElse fun _ => if lo = 0 then k prev (c :: cs) else none

/-- Run a regex at the current position.  `prev` is the character just before
the position (for `\b`), `k` is the continuation receiving the state after
the match; the result is the final remaining input of the first successful
alternative in Python's preference order. -/
def Regex.mrun : Regex → Option Char → List Char →
    (Option Char → List Char → Option (List Char)) → Option (List Char)
  | .eps, prev, s, k => k prev s
  | .cls p, _, s, k =>
    match s with
    | [] => none
    | c :: cs => if p c then k (some c) cs else none
  | .cat r1 r2, prev, s, k => r1.mrun prev s fun p' s' => r2.mrun p' s' k
  | .alt r1 r2, prev, s, k => (r1.mrun prev s k).orElse fun _ => r2.mrun prev s k
  | .reps p lo hi, prev, s, k => repsRun p lo hi prev s k
  | .wb, prev, s, k =>
    let lw := match prev with | some c => isWordChar c | none => false
    let rw := match s with | c :: _ => isWordChar c | [] => false
    if lw ≠ rw then k prev s else none

/-- Try the regex at every position from left to right; on success return the
pair (suffix starting at the match position, remaining input after the
match).  This is the search order of Python's `re.search`. -/
def searchRun (r : Regex) : Option Char → List Char → Option (List Char × List Char)
  | prev, s =>
    match r.mrun prev s fun _ rest => some rest with
    | some rest => some (s, rest)
    | none =>
      match s with
      | [] => none
      | c :: cs => searchRun r (some c) cs

/-- `re.search(r, s) is not None`. -/
def research (r : Regex) (s : List Char) : Bool :=
  (searchRun r none s).isSome

/-- `re.search(r, s).group()`: the text of the leftmost match. -/
def searchGroup0 (r : Regex) (s : List Char) : Option (List Char) :=
  (searchRun r none s).map fun pr => pr.1.take (pr.1.length - pr.2.length)

/-- `re.match(r', s) is not None` for a pattern `r'` of the shape `^r$`:
the whole input must be consumed. -/
def fullmatch (r : Regex) (s : List Char) : Bool :=
  (r.mrun none s fun _ rest => if rest.isEmpty then some rest else none).isSome

/-- Literal string (case sensitive). -/
def litP (s : String) : Regex :=
  s.data.foldr (fun c r => .cat (.cls fun x => x = c) r) .eps

/-- Literal string under `re.IGNORECASE`; the argument is given in lower
case. -/
def litCI (s : String) : Regex :=
  s.data.foldr (fun c r => .cat (.cls fun x => x.toLower = c) r) .eps

/-- `[AP]` under `re.IGNORECASE`. -/
def clsAP : Regex :=
  .cls fun x => x.toLower = 'a' || x.toLower = 'p'

/-- `M` under `re.IGNORECASE`. -/
def clsM : Regex :=
  .cls fun x => x.toLower = 'm'

/-- `.` (any character except a newline). -/
def clsDot : Regex :=
  .reps (fun c => c ≠ '\n') 0 none

/-- n-ary alternation (left preference, as in Python). -/
def altList : List Regex → Regex
  | [] => .eps
  | [r] => r
  | r :: rs => .alt r (altList rs)

/-- n-ary concatenation. -/
def catList : List Regex → Regex
  | [] => .eps
  | [r] => r
  | r :: rs => .cat r (catList rs)

/-! ### Appointment slots (`process_clinics_parallel.py`)

A slot dict becomes a record.  The code only ever reads/writes the keys
below; `{**slot, ...}` becomes a record update. -/

structure Slot where
  time : String
  source : String := ""
  booking_available : Bool := false
  slot_type : String := ""
  confidence : String := ""
  context : String := ""
  website_note : Option String := none
  deriving Repr, DecidableEq

/-- The `invalid_patterns` list of `ClinicProcessor.clean_appointment_slots`
(all searched with `re.IGNORECASE`):
`\d{4}\s*\w+\s*\w+`, `\d{3,5}`, `[A-Za-z]{4,}`, `\n`, `Get Directions`,
`CA \d{5}`, `Ave|Street|St|Blvd|Road|Dr`. -/
def invalid_patterns : List Regex :=
  [ catList [.reps isDigitChar 4 (some 4), .reps isSpaceChar 0 none,
      .reps isWordChar 1 none, .reps isSpaceChar 0 none, .reps isWordChar 1 none],
    .reps isDigitChar 3 (some 5),
    .reps isAsciiAlpha 4 none,
    .cls fun c => c = '\n',
    litCI "get directions",
    catList [litCI "ca ", .reps isDigitChar 5 (some 5)],
    altList [litCI "ave", litCI "street", litCI "st", litCI "blvd",
      litCI "road", litCI "dr"] ]

/-- The `time_patterns` list of `ClinicProcessor.clean_appointment_slots`
(all matched with `re.match` and `re.IGNORECASE`, anchored `^...$`):
`^\d{1,2}:\d{2}\s*[AP]M$`, `^\d{1,2}:\d{2}$`, `^\d{1,2}\s*[AP]M$`,
`^\d{1,2}:\d{2}\s*[ap]m$`. -/
def time_patterns : List Regex :=
  [ catList [.reps isDigitChar 1 (some 2), litP ":", .reps isDigitChar 2 (some 2),
      .reps isSpaceChar 0 none, clsAP, clsM],
    catList [.reps isDigitChar 1 (some 2), litP ":", .reps isDigitChar 2 (some 2)],
    catList [.reps isDigitChar 1 (some 2), .reps isSpaceChar 0 none, clsAP, clsM],
    catList [.reps isDigitChar 1 (some 2), litP ":", .reps isDigitChar 2 (some 2),
      .reps isSpaceChar 0 none, clsAP, clsM] ]

/-- The body of the per-slot filter in
`ClinicProcessor.clean_appointment_slots`: strip the time, drop it if it is
shorter than 2 characters, matches an invalid pattern, or matches no valid
time format; otherwise return the cleaned slot. -/
def clean_slot (slot : Slot) : Option Slot :=
  if (stripStr slot.time).data.length < 2 then none
  else if invalid_patterns.any fun r => research r (stripStr slot.time).data then none
  else if time_patterns.any fun r => fullmatch r (stripStr slot.time).data then
    some { slot with time := stripStr slot.time, booking_available := true, slot_type := "appointment" }
  else none

/-- Comparison used by `cleaned_slots.sort(key=lambda x: x['time'])`. -/
def slotTimeLE (a b : Slot) : Prop :=
  a.time ≤ b.time

instance : DecidableRel slotTimeLE := fun a b =>
  inferInstanceAs (Decidable (a.time ≤ b.time))

/-- `ClinicProcessor.clean_appointment_slots`: filter the candidate slots,
sort them by time string (Python's stable sort on strings), and keep at most
8. -/
def clean_appointment_slots (slots : List Slot) : List Slot :=
  ((slots.filterMap clean_slot).insertionSort slotTimeLE).take 8

/-- `re.sub(r'\s+', ' ', ...)`: collapse every whitespace run into a single
space. -/
def collapseWs : List Char → List Char
  | [] => []
  | c :: rest =>
    let t := collapseWs rest
    if isSpaceChar c then
      match t with
      | ' ' :: _ => t
      | _ => ' ' :: t
    else c :: t

/-- `re.sub(r'^(\d{1,2})\s*([AP]M)$', r'\1:00 \2', cleaned, re.IGNORECASE)`,
applied in `validate_and_format_time` only when the hour-only pattern has
already fully matched, so the string is digit run, optional spaces, AM/PM
(case preserved by the backreference `\2`). -/
def hourOnlyRewrite (l : List Char) : List Char :=
  (l.takeWhile isDigitChar) ++ (":00 ".data ++ (l.dropWhile isDigitChar).dropWhile isSpaceChar)

/-- `re.sub(r'([AP]M)', r' \1', cleaned, re.IGNORECASE)`: insert a space
before every (case-insensitive) `AM`/`PM`, scanning left to right without
overlap. -/
def spaceBeforeAmPm : List Char → List Char
  | [] => []
  | [c] => [c]
  | a :: m :: rest =>
    if (a.toLower = 'a' || a.toLower = 'p') && m.toLower = 'm' then
      ' ' :: a :: m :: spaceBeforeAmPm rest
    else a :: spaceBeforeAmPm (m :: rest)

/-- The three anchored patterns of `ClinicProcessor.validate_and_format_time`:
`^\d{1,2}:\d{2}\s*[AP]M$`, `^\d{1,2}:\d{2}$`, `^\d{1,2}\s*[AP]M$`
(`re.match`, `re.IGNORECASE`). -/
def vft_colon_ampm : Regex :=
  catList [.reps isDigitChar 1 (some 2), litP ":", .reps isDigitChar 2 (some 2),
    .reps isSpaceChar 0 none, clsAP, clsM]

def vft_colon : Regex :=
  catList [.reps isDigitChar 1 (some 2), litP ":", .reps isDigitChar 2 (some 2)]

def vft_hour_ampm : Regex :=
  catList [.reps isDigitChar 1 (some 2), .reps isSpaceChar 0 none, clsAP, clsM]

/-- `ClinicProcessor.validate_and_format_time`: normalize a time string, or
return `none` when it matches no accepted format.  The Python loop returns on
the first matching pattern after applying the same rewrites whichever pattern
matched, so it is equivalent to this any-match guard. -/
def validate_and_format_time (time_str : String) : Option String :=
  if time_str = "" then none
  else
    let cleaned := collapseWs (stripChars time_str.data)
    if fullmatch vft_colon_ampm cleaned || fullmatch vft_colon cleaned ||
        fullmatch vft_hour_ampm cleaned then
      let c1 := if fullmatch vft_hour_ampm cleaned then hourOnlyRewrite cleaned else cleaned
      let c2 := spaceBeforeAmPm c1
      some ⟨stripChars (collapseWs c2)⟩
    else none

/-- `common_times` in `generate_realistic_appointment_slots`. -/
def common_times : List String :=
  ["9:00 AM", "9:30 AM", "10:00 AM", "10:30 AM", "11:00 AM", "11:30 AM",
   "1:00 PM", "1:30 PM", "2:00 PM", "2:30 PM", "3:00 PM", "3:30 PM", "4:00 PM"]

/-- `ClinicProcessor.generate_realistic_appointment_slots`: six fixed
business-hour placeholder slots, tagged `source='generated_realistic'`, with
a note pointing at the institution's website when a URL is known. -/
def generate_realistic_appointment_slots (website_url : Option String) : List Slot :=
  (common_times.take 6).map fun t =>
    { time := t
      source := "generated_realistic"
      booking_available := true
      slot_type := "appointment"
      confidence := "medium"
      context :=
        match website_url with
        | some u => "No appointment info found on page - please visit " ++ u ++
            " directly to schedule"
        | none => "Generated based on typical medical practice hours"
      website_note := website_url.map fun u =>
        "Visit " ++ u ++ " for actual appointment booking" }

/-- A raw slot object from the Gemini JSON answer, as read by
`extract_appointment_slots` (`slot.get('time')`, `slot.get('confidence',
'medium')`, `slot.get('context', '')`). -/
structure LlmSlot where
  time : String
  confidence : Option String := none
  context : Option String := none
  deriving Repr, DecidableEq

/-- `ClinicProcessor.extract_appointment_slots` on its non-raising path.
The two page-reading stages are oracles: `llm_slots` is what
`extract_appointment_slots_with_llm` returned and `fallback_slots` what
`extract_appointment_slots_fallback` returned (both return `[]` on their own
internal failures).  If the LLM list is non-empty its entries with a truthy
`time` are normalized and returned (the later stages are not attempted);
otherwise the regex fallback result is returned if non-empty; otherwise the
synthetic placeholder slots are generated. -/
def extract_appointment_slots (llm_slots : List LlmSlot) (fallback_slots : List Slot)
    (current_url : Option String) : List Slot :=
  if llm_slots.length > 0 then
    llm_slots.filterMap fun s =>
      if s.time ≠ "" then
        some { time := s.time
               source := "llm_extraction"
               booking_available := true
               slot_type := "appointment"
               confidence := s.confidence.getD "medium"
               context := s.context.getD "" }
      else none
  else if fallback_slots.isEmpty then
    generate_realistic_appointment_slots current_url
  else fallback_slots

/-! ### Guardrail validation (`api_server.py`, class `GuardrailValidator`)

`validate_user_input` lowercases the input and walks an ordered rule list;
the first rule whose pattern is found (`re.search`) wins.  The rejection
message is chosen by substring tests **on the rule's pattern source string
and event type**, exactly as in the Python code, so the pattern sources are
carried along (literal braces written with their `\x7b`/`\x7d` escapes). -/

/-- Literal apostrophe (several guardrail strings contain one). -/
def apoC : Char := Char.ofNat 39

def apoS : String := String.singleton apoC

/-- `\b(kill|suicide|harm|hurt)\s+(myself|me)\b` -/
def re_selfharm1 : Regex :=
  catList [.wb, altList [litP "kill", litP "suicide", litP "harm", litP "hurt"],
    .reps isSpaceChar 1 none, altList [litP "myself", litP "me"], .wb]

/-- `\b(want to die|end my life)\b` -/
def re_selfharm2 : Regex :=
  catList [.wb, altList [litP "want to die", litP "end my life"], .wb]

/-- `\b(illegal drugs|street drugs)\b` -/
def re_illegal1 : Regex :=
  catList [.wb, altList [litP "illegal drugs", litP "street drugs"], .wb]

/-- `\b(prescription fraud|fake prescription)\b` -/
def re_illegal2 : Regex :=
  catList [.wb, altList [litP "prescription fraud", litP "fake prescription"], .wb]

/-- `\b(take|ingest|swallow)\s+(\d{2,}|\d+\s+(pills|tablets))\b` -/
def re_dosage1 : Regex :=
  catList [.wb, altList [litP "take", litP "ingest", litP "swallow"],
    .reps isSpaceChar 1 none,
    altList [.reps isDigitChar 2 none,
      catList [.reps isDigitChar 1 none, .reps isSpaceChar 1 none,
        altList [litP "pills", litP "tablets"]]], .wb]

/-- `\b(\d{2,})\s+(pills|tablets|capsules)\b` -/
def re_dosage2 : Regex :=
  catList [.wb, .reps isDigitChar 2 none, .reps isSpaceChar 1 none,
    altList [litP "pills", litP "tablets", litP "capsules"], .wb]

/-- `\bwhole bottle\b.*\b(pills|medication)\b` -/
def re_dosage3 : Regex :=
  catList [.wb, litP "whole bottle", .wb, clsDot, .wb,
    altList [litP "pills", litP "medication"], .wb]

/-- One entry of the `inappropriate_patterns` list: compiled pattern,
pattern source text, event type, severity. -/
structure InputRule where
  regex : Regex
  src : String
  event_type : String
  severity : String

/-- The `inappropriate_patterns` list of `validate_user_input`, in source
order: self-harm/crisis first, then illegal content, then dangerous
dosage. -/
def inappropriate_patterns : List InputRule :=
  [ ⟨re_selfharm1, "\\b(kill|suicide|harm|hurt)\\s+(myself|me)\\b",
      "suicide_ideation", "critical"⟩,
    ⟨re_selfharm2, "\\b(want to die|end my life)\\b", "suicide_ideation", "critical"⟩,
    ⟨re_illegal1, "\\b(illegal drugs|street drugs)\\b", "illegal_content", "high"⟩,
    ⟨re_illegal2, "\\b(prescription fraud|fake prescription)\\b",
      "illegal_content", "high"⟩,
    ⟨re_dosage1, "\\b(take|ingest|swallow)\\s+(\\d\x7b2,\x7d|\\d+\\s+(pills|tablets))\\b",
      "dangerous_dosage", "critical"⟩,
    ⟨re_dosage2, "\\b(\\d\x7b2,\x7d)\\s+(pills|tablets|capsules)\\b",
      "dangerous_dosage", "critical"⟩,
    ⟨re_dosage3, "\\bwhole bottle\\b.*\\b(pills|medication)\\b",
      "dangerous_dosage", "critical"⟩ ]

/-- `\bshould i take\b.*\b(medication|pills|drugs)\b` -/
def re_advice1 : Regex :=
  catList [.wb, litP "should i take", .wb, clsDot, .wb,
    altList [litP "medication", litP "pills", litP "drugs"], .wb]

/-- `\bwhat medication\b` -/
def re_advice2 : Regex := catList [.wb, litP "what medication", .wb]

/-- `\bhow much\b.*\b(dosage|dose)\b` -/
def re_advice3 : Regex :=
  catList [.wb, litP "how much", .wb, clsDot, .wb,
    altList [litP "dosage", litP "dose"], .wb]

/-- `\bdiagnose me\b` -/
def re_advice4 : Regex := catList [.wb, litP "diagnose me", .wb]

/-- `\bis it cancer\b` -/
def re_advice5 : Regex := catList [.wb, litP "is it cancer", .wb]

/-- The `medical_advice_patterns` list (pattern, event type). -/
def medical_advice_patterns : List (Regex × String) :=
  [ (re_advice1, "medical_advice_request"),
    (re_advice2, "medical_advice_request"),
    (re_advice3, "dosage_request"),
    (re_advice4, "diagnosis_request"),
    (re_advice5, "diagnosis_request") ]

/-- Crisis-resource rejection message of `validate_user_input`. -/
def crisis_message : String :=
  "I" ++ apoS ++ "m concerned about your safety. Please contact emergency " ++
  "services (911) or a crisis helpline if you" ++ apoS ++ "re in immediate danger."

/-- Dangerous-dosage rejection message of `validate_user_input`. -/
def dosage_message : String :=
  "I" ++ apoS ++ "m very concerned about this request. Taking large amounts " ++
  "of medication can be extremely dangerous. Please contact emergency " ++
  "services (911) or poison control (1-800-222-1222) immediately if you" ++
  apoS ++ "re considering this."

/-- Illegal-content rejection message of `validate_user_input`. -/
def illegal_message : String :=
  "I can only provide information about legal medical treatments and services."

/-- Medical-advice rejection message of `validate_user_input`. -/
def advice_message : String :=
  "I cannot provide specific medical advice or diagnoses. Please consult " ++
  "with a healthcare professional for medical guidance."

/-- `GuardrailValidator.validate_user_input`: returns
`(allowed, rejection message)`.  The W&B logging side effects are dropped
(they do not affect the returned value). -/
def validate_user_input (user_input : String) : Bool × Option String :=
  let low := toLowerStr user_input
  match inappropriate_patterns.find? (fun rule => research rule.regex low.data) with
  | some rule =>
    if strIn "suicide" rule.src || strIn "kill" rule.src || strIn "die" rule.src then
      (false, some crisis_message)
    else if strIn "dosage" rule.event_type || strIn "pills" rule.src ||
        strIn "bottle" rule.src then
      (false, some dosage_message)
    else
      (false, some illegal_message)
  | none =>
    if medical_advice_patterns.any (fun rule => research rule.1 low.data) then
      (false, some advice_message)
    else
      (true, none)

/-- The `problematic_phrases` regexes of `validate_ai_response`, in source
order. -/
def problematic_phrases : List Regex :=
  [ catList [.wb, litP "you have", .wb, clsDot, .wb,
      altList [litP "cancer", litP "diabetes", litP "heart disease"], .wb],
    catList [.wb, litP "you are diagnosed with", .wb],
    catList [.wb, litP "take this medication", .wb],
    catList [.wb, litP "stop taking your medication", .wb],
    catList [.wb, litP ("you don" ++ apoS ++ "t need a doctor"), .wb],
    catList [.wb, litP "this will cure", .wb],
    catList [.wb, litP "guaranteed to work", .wb] ]

/-- Substrings that mark a response as giving specific advice. -/
def advice_indicators : List String :=
  ["you should take", "i recommend", "my advice is", "you need to",
   "definitely do this"]

/-- Substrings that count as a consult-a-professional disclaimer. -/
def disclaimer_indicators : List String :=
  ["consult", "healthcare provider", "medical professional", "doctor", "emergency"]

/-- Rejection message for a problematic outbound phrase. -/
def problematic_message : String :=
  "Response contains potential medical advice that requires professional consultation."

/-- Rejection message for advice without a disclaimer. -/
def disclaimer_message : String :=
  "Medical advice should include appropriate disclaimers about consulting " ++
  "healthcare professionals."

/-- `GuardrailValidator.validate_ai_response`. -/
def validate_ai_response (response : String) : Bool × Option String :=
  let low := toLowerStr response
  if problematic_phrases.any (fun r => research r low.data) then
    (false, some problematic_message)
  else if (advice_indicators.any fun a => strIn a low) &&
      !(disclaimer_indicators.any fun d => strIn d low) then
    (false, some disclaimer_message)
  else
    (true, none)

/-! ### Patient data and field extraction (`crewai_agents/main.py`) -/

/-- One entry of `conversation_history`. -/
structure ConvEntry where
  timestamp : String
  speaker : String
  message : String
  deriving Repr, DecidableEq

/-- The `PatientData` dataclass.  Optional fields default to `None`; the
`__post_init__` hook makes `conversation_history` a list. -/
structure PatientData where
  session_id : String
  timestamp : String
  medical_condition : Option String := none
  zip_code : Option String := none
  phone_number : Option String := none
  insurance : Option String := none
  symptoms : Option (List String) := none
  reasoning_analysis : Option String := none
  conversation_history : List ConvEntry := []
  deriving Repr, DecidableEq

/-- Python truthiness of an optional string: `None` and `""` are falsy. -/
def optTruthy : Option String → Bool
  | none => false
  | some s => s ≠ ""

/-- `PatientData.is_basic_info_complete`:
`all([medical_condition, zip_code, phone_number, insurance])` — note that
`all` tests Python truthiness, not only non-`None`. -/
def is_basic_info_complete (p : PatientData) : Bool :=
  optTruthy p.medical_condition && optTruthy p.zip_code &&
    optTruthy p.phone_number && optTruthy p.insurance

/-- The JSON object parsed out of the extraction agent's answer in
`_extract_and_update_patient_data` (`extracted_data`); `found` defaults to
`True` (`extracted_data.get("found", True)`). -/
structure ExtractedData where
  found : Bool := true
  medical_condition : Option String := none
  zip_code : Option String := none
  phone_number : Option String := none
  insurance : Option String := none
  additional_symptoms : List String := []
  deriving Repr, DecidableEq

/-- Append the extracted symptoms, initializing the list if unset and
skipping duplicates, as in `_extract_and_update_patient_data`. -/
def addSymptoms (p : PatientData) (syms : List String) : PatientData :=
  let merged := syms.foldl (fun acc s => if s ∈ acc then acc else acc ++ [s])
    (p.symptoms.getD [])
  { p with symptoms := some merged }

/-- One guarded field write of `_extract_and_update_patient_data`:
`if extracted_data.get(f) and not self.patient_data.f: self.patient_data.f = ...`. -/
def updMC (p : PatientData) (v : Option String) : PatientData :=
  if optTruthy v && !optTruthy p.medical_condition then { p with medical_condition := v } else p

def updZip (p : PatientData) (v : Option String) : PatientData :=
  if optTruthy v && !optTruthy p.zip_code then { p with zip_code := v } else p

def updPhone (p : PatientData) (v : Option String) : PatientData :=
  if optTruthy v && !optTruthy p.phone_number then { p with phone_number := v } else p

def updIns (p : PatientData) (v : Option String) : PatientData :=
  if optTruthy v && !optTruthy p.insurance then { p with insurance := v } else p

/-- The condition-from-symptoms heuristic at the end of
`_extract_and_update_patient_data`: early in the conversation (history
length ≤ 3), a still-falsy condition is synthesized from the symptoms. -/
def synthCondition (p : PatientData) : PatientData :=
  if !optTruthy p.medical_condition &&
      (match p.symptoms with | some l => l ≠ [] | none => false) &&
      p.conversation_history.length ≤ 3 then
    let synth := "Patient reports: " ++ String.intercalate ", " (p.symptoms.getD [])
    { p with medical_condition := some synth }
  else p

/-- The update block of `_extract_and_update_patient_data` once a JSON
object has been parsed: each of the four fields is written only when the
extracted value is truthy and the current value is falsy (in source order:
condition, zip, phone, insurance); symptoms are appended; finally the
condition-from-symptoms heuristic runs. -/
def update_from_extraction (p : PatientData) (d : ExtractedData) : PatientData :=
  if d.found then
    let p4 := updIns (updPhone (updZip (updMC p d.medical_condition)
      d.zip_code) d.phone_number) d.insurance
    let p5 := if d.additional_symptoms ≠ [] then addSymptoms p4 d.additional_symptoms else p4
    synthCondition p5
  else p

/-- `medical_keywords` of `_simple_data_extraction`. -/
def medical_keywords : List String :=
  ["pain", "ache", "hurt", "sick", "condition", "problem", "headache", "fever",
   "nausea", "dizzy", "cough", "cold", "flu", "infection", "injury", "broken",
   "sprain", "cut", "burn", "rash", "allergy"]

/-- `insurance_keywords` of `_simple_data_extraction`. -/
def insurance_keywords : List String :=
  ["insurance", "aetna", "blue cross", "bluecross", "medicare", "medicaid",
   "cigna", "humana", "anthem", "kaiser", "bcbs", "united healthcare",
   "unitedhealthcare"]

/-- `\b\d{5}\b` (ZIP pattern of `_simple_data_extraction`). -/
def re_zip : Regex :=
  catList [.wb, .reps isDigitChar 5 (some 5), .wb]

/-- `\b\d{3}[-.]?\d{3}[-.]?\d{4}\b` -/
def re_phone1 : Regex :=
  catList [.wb, .reps isDigitChar 3 (some 3),
    .reps (fun c => c = '-' || c = '.') 0 (some 1), .reps isDigitChar 3 (some 3),
    .reps (fun c => c = '-' || c = '.') 0 (some 1), .reps isDigitChar 4 (some 4), .wb]

/-- `\(\d{3}\)\s*\d{3}[-.]?\d{4}` -/
def re_phone2 : Regex :=
  catList [litP "(", .reps isDigitChar 3 (some 3), litP ")",
    .reps isSpaceChar 0 none, .reps isDigitChar 3 (some 3),
    .reps (fun c => c = '-' || c = '.') 0 (some 1), .reps isDigitChar 4 (some 4)]

/-- `\b\d{10}\b` -/
def re_phone3 : Regex :=
  catList [.wb, .reps isDigitChar 10 (some 10), .wb]

/-- The phone loop of `_simple_data_extraction`: the first pattern that
matches wins (`break`), and the stored value is the matched text. -/
def phoneSearch (s : List Char) : Option (List Char) :=
  match searchGroup0 re_phone1 s with
  | some g => some g
  | none =>
    match searchGroup0 re_phone2 s with
    | some g => some g
    | none => searchGroup0 re_phone3 s

/-- The condition step of `_simple_data_extraction` (keyword trigger,
captures the stripped raw input verbatim). -/
def simpleMC (p : PatientData) (user_input : String) : PatientData :=
  if !optTruthy p.medical_condition &&
      (medical_keywords.any fun w => strIn w (toLowerStr user_input)) then
    { p with medical_condition := some (stripStr user_input) }
  else p

/-- The ZIP step of `_simple_data_extraction` (`re.search(r'\b\d{5}\b')`,
stores the matched text). -/
def simpleZip (p : PatientData) (user_input : String) : PatientData :=
  if !optTruthy p.zip_code then
    match searchGroup0 re_zip user_input.data with
    | some g => { p with zip_code := some ⟨g⟩ }
    | none => p
  else p

/-- The phone step of `_simple_data_extraction` (first matching pattern
wins, stores the matched text). -/
def simplePhone (p : PatientData) (user_input : String) : PatientData :=
  if !optTruthy p.phone_number then
    match phoneSearch user_input.data with
    | some g => { p with phone_number := some ⟨g⟩ }
    | none => p
  else p

/-- The insurance step of `_simple_data_extraction` (keyword trigger,
captures the stripped raw input verbatim). -/
def simpleIns (p : PatientData) (user_input : String) : PatientData :=
  if !optTruthy p.insurance &&
      (insurance_keywords.any fun w => strIn w (toLowerStr user_input)) then
    { p with insurance := some (stripStr user_input) }
  else p

/-- `_simple_data_extraction`: the deterministic regex/keyword fallback, in
source order (condition, zip, phone, insurance); each field is written only
when currently falsy. -/
def simple_data_extraction (p : PatientData) (user_input : String) : PatientData :=
  simpleIns (simplePhone (simpleZip (simpleMC p user_input) user_input) user_input) user_input

/-- Outcome of the extraction-agent call inside
`_extract_and_update_patient_data`: a parsed JSON object, a reply with no
JSON object in it (no update at all), or an exception (crew failure or
malformed JSON), which falls back to `_simple_data_extraction`. -/
inductive LlmExtractionOutcome where
  | parsed (d : ExtractedData)
  | noJson
  | failed
  deriving Repr, DecidableEq

/-- `PatientHeroCrewAI._extract_and_update_patient_data`, with the
extraction-agent call abstracted as `o`. -/
def extract_and_update_patient_data (p : PatientData) (user_input : String)
    (o : LlmExtractionOutcome) : PatientData :=
  match o with
  | .parsed d => update_from_extraction p d
  | .noJson => p
  | .failed => simple_data_extraction p user_input

/-! ### Institution search (`crewai_agents/exa_helper.py`) -/

/-- One Exa search result as consumed by `process_patient_from_main`. -/
structure SearchItem where
  title : String
  url : String
  deriving Repr, DecidableEq

/-- A produced hospital entry. -/
structure Hospital where
  hospital_name : String
  link : String
  institution_type : String
  accepts_user_insurance : String
  deriving Repr, DecidableEq

/-- Outcome of one `self.exa.answer(...)` call: an exception, a falsy
response or one without an `answer` attribute, or an answer text. -/
inductive AnswerOutcome where
  | raise
  | noAnswer
  | ans (text : String)
  deriving Repr, DecidableEq

/-- `ExaHelper._exa_check_insurance` (the helper is only invoked when the
Exa client is configured, which `process_patient_from_main` guarantees).
Returns one of `"true"`, `"false"`, `"unknown"`. -/
def exa_check_insurance (hospital_name : String) (insurance : Option String)
    (url : String) (o : AnswerOutcome) : String :=
  if !optTruthy insurance || url = "" then "unknown"
  else
    match o with
    | .raise => "unknown"
    | .noAnswer => "unknown"
    | .ans text =>
      let a := toLowerStr text
      if strIn "yes" a || strIn "accept" a then "true"
      else if strIn "no" a || strIn "not accept" a then "false"
      else "unknown"

/-- `ExaHelper._guess_institution_type`. -/
def guess_institution_type (title : String) (url : String) : String :=
  let t := toLowerStr title
  if strIn "emergency" t then "Emergency Room"
  else if strIn "urgent" t then "Urgent Care"
  else if strIn "hospital" t then "Hospital"
  else if strIn "clinic" t then "Clinic"
  else if strIn "medical center" t then "Medical Center"
  else if strIn "va" t || strIn "veterans" t || strIn ".gov" url then
    "Government Facility"
  else "Healthcare Facility"

/-- The two URL filters of `process_patient_from_main` (the second is
subsumed by the first but kept as in the source). -/
def exaUrlAccepted (url : String) : Bool :=
  (strEndsWith url ".org" || strIn ".org/" url || strIn ".gov" url) &&
    (strIn ".org" url || strIn ".gov" url)

/-- The result loop of `process_patient_from_main`: walk the search results
in order, keep those passing the URL filter, attach the insurance check
(per-item answer outcomes come from `answers`, indexed by the item's
position in the search results), and stop once 5 hospitals are collected. -/
def buildHospitals (insurance : Option String) (answers : Nat → AnswerOutcome) :
    Nat → Nat → List SearchItem → List Hospital
  | _, _, [] => []
  | idx, count, item :: rest =>
    if exaUrlAccepted item.url then
      let h : Hospital :=
        { hospital_name := item.title
          link := item.url
          institution_type := guess_institution_type item.title item.url
          accepts_user_insurance :=
            exa_check_insurance item.title insurance item.url (answers idx) }
      if count + 1 = 5 then [h]
      else h :: buildHospitals insurance answers (idx + 1) (count + 1) rest
    else buildHospitals insurance answers (idx + 1) count rest

/-- `ExaHelper.process_patient_from_main` with a configured Exa client: the
search call is abstracted by `items`, the answer API by `answers`; the file
write is dropped (it does not affect the returned list). -/
def process_patient_from_main (items : List SearchItem) (insurance : Option String)
    (answers : Nat → AnswerOutcome) : List Hospital :=
  buildHospitals insurance answers 0 0 items

/-! ### Parallel clinic processing (`process_clinics_parallel.py`) -/

/-- Clinic input record (as produced by `load_clinics`). -/
structure Clinic where
  name : String := ""
  website : String := ""
  institution_type : String := ""
  accepts_user_insurance : String := "unknown"
  deriving Repr, DecidableEq

/-- Per-clinic result: the clinic dict spread together with the keys that
`process_clinic` / `process_clinics_parallel` may add. -/
structure ClinicResult where
  clinic : Clinic
  appointment_slots : Option (List Slot) := none
  error : Option String := none
  status : Option String := none
  last_checked : Option String := none
  deriving Repr, DecidableEq

/-- What the browser environment does for one clinic inside
`process_clinic`'s `try` block: either navigation and extraction complete
and produce the raw slot list, or an exception with the given message is
raised somewhere in the block. -/
inductive ClinicOutcome where
  | ok (slots : List Slot)
  | exn (msg : String)
  deriving Repr, DecidableEq

/-- Outcome of the whole task as seen by `asyncio.gather(...,
return_exceptions=True)`: the task completed (with `process_clinic`
handling its own `try`/`except`), or the task itself surfaced an
exception, converted at the batch boundary. -/
inductive TaskOutcome where
  | completed (o : ClinicOutcome)
  | raised (msg : String)
  deriving Repr, DecidableEq

/-- `ClinicProcessor.process_clinic`: missing-website short-circuit, then
the `try` block (navigate, extract, clean) or the `except` branch recording
`status='error'` with the caught message.  `now` stands for
`datetime.now().isoformat()`. -/
def process_clinic (c : Clinic) (o : ClinicOutcome) (now : String) : ClinicResult :=
  if c.website = "" then
    { clinic := c, error := some "No website URL provided" }
  else
    match o with
    | .ok raw_slots =>
      let cleaned := clean_appointment_slots raw_slots
      { clinic := c
        appointment_slots := some cleaned
        status := some (if cleaned.isEmpty then "no_slots_found" else "success")
        last_checked := some now }
    | .exn msg =>
      { clinic := c, error := some msg, status := some "error", last_checked := some now }

/-- The per-result handling inside `process_clinics_parallel`'s batch loop:
an exception surfaced by `gather` becomes an error record, any other result
is appended as-is. -/
def handle_task (c : Clinic) (t : TaskOutcome) (now : String) : ClinicResult :=
  match t with
  | .completed o => process_clinic c o now
  | .raised msg =>
    { clinic := c, error := some msg, status := some "error", last_checked := some now }

/-- In-order processing of a list of clinics starting at global index `i`
(the order in which one batch's `gather` results are appended). -/
def flatProcess (env : Nat → TaskOutcome) (now : String) : Nat → List Clinic → List ClinicResult
  | _, [] => []
  | i, c :: cs => handle_task c (env i) now :: flatProcess env now (i + 1) cs

/-- The batch loop of `process_clinics_parallel` with
`max_concurrent = MAX_CONCURRENT_TASKS = 3`: process the next batch of up to
three clinics, append their `gather` results in order, then continue with the
rest (the inter-batch sleep has no effect on the results). -/
def processBatches (env : Nat → TaskOutcome) (now : String) :
    Nat → List Clinic → List ClinicResult
  | _, [] => []
  | off, [c] => flatProcess env now off [c]
  | off, [c, a] => flatProcess env now off [c, a]
  | off, c :: a :: b :: rest =>
    flatProcess env now off [c, a, b] ++ processBatches env now (off + 3) rest

/-- `process_clinics_parallel`: the full run over all clinics, with the
per-clinic browser outcomes supplied by the environment `env` (indexed by
the clinic's position in the input list). -/
def process_clinics_parallel (clinics : List Clinic) (env : Nat → TaskOutcome)
    (now : String) : List ClinicResult :=
  processBatches env now 0 clinics

/-! ### The chat endpoint (`api_server.py`, `chat_endpoint`) -/

/-- What `PatientHeroCrewAI.process_user_input` returns for one turn,
together with the mutated patient record (`patient_data` is the
`to_dict()` snapshot of that record, i.e. the same value). -/
structure TurnResult where
  agent : String
  response : String
  patient_data : PatientData
  next_step : String
  extraction_data : Option String := none
  deriving Repr

/-- The `patient_data` payload of a `ChatResponse`: the blocked-input branch
returns only `{"session_id": ...}`, the other branches a full record
snapshot. -/
inductive RespPatientData where
  | sessionOnly (session_id : String)
  | full (d : PatientData)
  deriving Repr, DecidableEq

/-- The `ChatResponse` pydantic model. -/
structure ChatResponse where
  agent : String
  response : String
  patient_data : RespPatientData
  next_step : String
  extraction_data : Option String := none
  guardrail_triggered : Bool := false
  guardrail_warning : Option String := none
  deriving Repr

/-- The session store `patient_sessions`, abstracted to the per-session
patient record. -/
abbrev Sessions := List (String × PatientData)

/-- Dictionary lookup. -/
def lookupSession : Sessions → String → Option PatientData
  | [], _ => none
  | (k, v) :: rest, sid => if k = sid then some v else lookupSession rest sid

/-- Dictionary write for an existing key. -/
def updateSession (l : Sessions) (sid : String) (v : PatientData) : Sessions :=
  l.map fun kv => if kv.1 = sid then (kv.1, v) else kv

/-- `request.session_id or "temp"` (`None` and `""` are falsy). -/
def effectiveSessionId (reqSessionId : Option String) : String :=
  match reqSessionId with
  | some s => if s = "" then "temp" else s
  | none => "temp"

/-- The fixed safe-fallback text returned when output validation blocks. -/
def safe_fallback_response : String :=
  "I apologize, but I need to be more careful with my response. Let me " ++
  "rephrase that to ensure I" ++ apoS ++ "m providing safe and appropriate " ++
  "information. Please consult with a healthcare professional for specific " ++
  "medical advice."

/-- The tail of `chat_endpoint` after the turn has been processed: validate
the outbound text; when blocked, replace the response by the safe fallback
and set the warning flag, keeping the already-committed session state. -/
def finishTurn (r : TurnResult) (sessions' : Sessions) : ChatResponse × Sessions :=
  let ov := validate_ai_response r.response
  if ov.1 then
    ({ agent := r.agent
       response := r.response
       patient_data := .full r.patient_data
       next_step := r.next_step
       extraction_data := r.extraction_data
       guardrail_triggered := false }, sessions')
  else
    ({ agent := "guardrail_system"
       response := safe_fallback_response
       patient_data := .full r.patient_data
       next_step := r.next_step
       guardrail_triggered := true
       guardrail_warning := ov.2 }, sessions')

/-- `chat_endpoint` (`POST /api/chat`).  The CrewAI turn processing is the
oracle `proc` (old record and user input to turn result, whose
`patient_data` is the mutated record); `fresh_id`/`fresh_time` are the
session id and timestamp a newly created `PatientHeroCrewAI` would get.
W&B logging is dropped.  Returns the response and the session store after
the call. -/
def chat_endpoint (proc : PatientData → String → TurnResult) (sessions : Sessions)
    (user_input : String) (req_session_id : Option String)
    (fresh_id fresh_time : String) : ChatResponse × Sessions :=
  let session_id := effectiveSessionId req_session_id
  let v := validate_user_input user_input
  if v.1 then
    match lookupSession sessions session_id with
    | some rec =>
      let r := proc rec user_input
      finishTurn r (updateSession sessions session_id r.patient_data)
    | none =>
      let newRec : PatientData := { session_id := fresh_id, timestamp := fresh_time }
      let r := proc newRec user_input
      finishTurn r (updateSession (sessions ++ [(fresh_id, newRec)]) fresh_id r.patient_data)
  else
    ({ agent := "guardrail_system"
       response := v.2.getD ""
       patient_data := .sessionOnly session_id
       next_step := "input_validation_failed"
       guardrail_triggered := true
       guardrail_warning := v.2 }, sessions)

instance : IsTotal Slot slotTimeLE := ⟨fun a b => le_total a.time b.time⟩

instance : IsTrans Slot slotTimeLE := ⟨fun _ _ _ h1 h2 => le_trans h1 h2⟩

/-! ### Concrete records and oracles used by the witnesses below -/

instance : Inhabited ClinicResult := ⟨{ clinic := {} }⟩

/-- Demo clinics for the C1 witness. -/
def demoClinics : List Clinic :=
  [{ name := "A", website := "https://a.org" },
   { name := "B", website := "https://b.org" },
   { name := "C", website := "https://c.org" },
   { name := "D", website := "https://d.org" }]

/-- Demo environment: institution 1 raises on navigation, the others
succeed with no raw slots. -/
def demoEnv : Nat → TaskOutcome := fun n =>
  if n = 1 then .completed (.exn "nav timeout") else .completed (.ok [])

/-- Demo environment in which institution 1 does not fail. -/
def demoEnvOk : Nat → TaskOutcome := fun _ => .completed (.ok [])

/-- A record whose four required fields are all the empty string:
non-null, but falsy for Python's `all`. -/
def emptyStringsPatient : PatientData :=
  { session_id := "sid", timestamp := "ts", medical_condition := some "",
    zip_code := some "", phone_number := some "", insurance := some "" }

/-- A record with all four required fields filled. -/
def completePatient : PatientData :=
  { session_id := "sid", timestamp := "ts", medical_condition := some "flu",
    zip_code := some "90210", phone_number := some "555-123-4567",
    insurance := some "Blue Cross" }

/-- The same record with unrelated fields changed. -/
def completePatientVariant : PatientData :=
  { completePatient with
      symptoms := some ["cough", "fever"]
      reasoning_analysis := some "initial analysis"
      conversation_history := [{ timestamp := "ts", speaker := "user", message := "hi" }] }

/-- A record whose zip code is the empty string: non-null but falsy. -/
def emptyZipPatient : PatientData :=
  { session_id := "sid", timestamp := "ts", zip_code := some "" }

/-- Extraction input claiming a different zip code. -/
def newZipExtraction : ExtractedData :=
  { zip_code := some "12345" }

/-- Extraction result carrying different candidates for all four fields. -/
def conflictingExtraction : ExtractedData :=
  { medical_condition := some "migraine", zip_code := some "10001",
    phone_number := some "999-888-7777", insurance := some "Aetna" }

/-- A demo turn-processing oracle. -/
def demoProcA : PatientData → String → TurnResult :=
  fun p _ => { agent := "chat_agent", response := "How can I help you today?",
               patient_data := p, next_step := "continue_basic_info" }

/-- A second, different demo oracle. -/
def demoProcB : PatientData → String → TurnResult :=
  fun p _ => { agent := "chat_agent", response := "Tell me more.",
               patient_data := p, next_step := "continue_basic_info" }

/-- Demo record mutated by the turn (a field was extracted). -/
def mutatedPatient : PatientData :=
  { session_id := "s1", timestamp := "t0", medical_condition := some "headache" }

/-- A turn oracle whose generated response trips output validation. -/
def demoProcBad : PatientData → String → TurnResult :=
  fun _ _ => { agent := "chat_agent", response := "this will cure you",
               patient_data := mutatedPatient, next_step := "continue_basic_info" }

/-! ## Helper lemmas -/

lemma dropWhile_dropWhile (p : Char → Bool) (l : List Char) :
    (l.dropWhile p).dropWhile p = l.dropWhile p := by
  induction l with
  | nil => rfl
  | cons c t ih =>
    by_cases hc : p c
    · simp [List.dropWhile_cons, hc, ih]
    · simp [List.dropWhile_cons, hc]

lemma dropWhile_eq_self_of_head? (p : Char → Bool) (l : List Char)
    (h : ∀ c ∈ l.head?, p c = false) : l.dropWhile p = l := by
  cases l with
  | nil => rfl
  | cons c t =>
    have := h c (by simp)
    simp [List.dropWhile_cons, this]

lemma getLast?_dropWhile (p : Char → Bool) :
    ∀ l : List Char, l.dropWhile p ≠ [] → (l.dropWhile p).getLast? = l.getLast?
  | [], h => by simp at h
  | c :: t, h => by
    by_cases hc : p c
    · rw [List.dropWhile_cons_of_pos hc] at h ⊢
      have ht : t ≠ [] := by
        intro h0
        subst h0
        simp at h
      rw [getLast?_dropWhile p t h]
      cases t with
      | nil => exact absurd rfl ht
      | cons b t' => simp [List.getLast?_cons_cons]
    · rw [List.dropWhile_cons_of_neg hc]

lemma stripChars_idem (l : List Char) : stripChars (stripChars l) = stripChars l := by
  unfold stripChars
  set a := l.dropWhile isSpaceChar with ha
  set x := a.reverse.dropWhile isSpaceChar with hx
  rcases hxe : x with _ | ⟨c, t⟩
  · simp
  rw [← hxe]
  have hxne : x ≠ [] := by rw [hxe]; exact List.cons_ne_nil _ _
  -- the reversed trimmed string starts with a non-space character
  have hhead : ∀ ch ∈ x.reverse.head?, isSpaceChar ch = false := by
    intro ch hch
    rw [List.head?_reverse] at hch
    rw [hx, getLast?_dropWhile _ _ (hx ▸ hxne), List.getLast?_reverse] at hch
    have hkey := List.head?_dropWhile_not isSpaceChar l
    rw [← ha, Option.mem_def.mp hch] at hkey
    exact hkey
  rw [dropWhile_eq_self_of_head? _ _ hhead, List.reverse_reverse, hx,
    dropWhile_dropWhile]

lemma stripStr_idem (s : String) : stripStr (stripStr s) = stripStr s := by
  unfold stripStr
  exact congrArg String.mk (stripChars_idem s.data)

/-- `clean_slot` is stable: a slot it has produced passes unchanged. -/
lemma clean_slot_stable {s t : Slot} (h : clean_slot s = some t) :
    clean_slot t = some t := by
  unfold clean_slot at h ⊢
  split_ifs at h with h1 h2 h3
  injection h with h
  subst h
  have e : ({ s with time := stripStr s.time, booking_available := true, slot_type := "appointment" } : Slot).time = stripStr s.time := rfl
  rw [e, stripStr_idem, if_neg h1, if_neg h2, if_pos h3]

lemma filterMap_eq_self_of_stable {α : Type} (f : α → Option α) :
    ∀ l : List α, (∀ x ∈ l, f x = some x) → l.filterMap f = l
  | [], _ => rfl
  | x :: t, h => by
    rw [List.filterMap_cons, h x (List.mem_cons_self x t),
      filterMap_eq_self_of_stable f t fun y hy => h y (List.mem_cons_of_mem x hy)]

/-- Every element of a cleaned slot list is a fixed point of `clean_slot`. -/
lemma mem_clean_appointment_slots_stable {slots : List Slot} {x : Slot}
    (hx : x ∈ clean_appointment_slots slots) : clean_slot x = some x := by
  unfold clean_appointment_slots at hx
  have hx1 : x ∈ (slots.filterMap clean_slot).insertionSort slotTimeLE :=
    List.mem_of_mem_take hx
  have hx2 : x ∈ slots.filterMap clean_slot := (List.mem_insertionSort _).mp hx1
  obtain ⟨a, _, ha⟩ := List.mem_filterMap.mp hx2
  exact clean_slot_stable ha

lemma clean_appointment_slots_sorted (slots : List Slot) :
    (clean_appointment_slots slots).Sorted slotTimeLE := by
  unfold clean_appointment_slots
  exact ((List.sorted_insertionSort slotTimeLE _).sublist (List.take_sublist _ _))

lemma clean_appointment_slots_len (slots : List Slot) :
    (clean_appointment_slots slots).length ≤ 8 := by
  unfold clean_appointment_slots
  simp

/-! ## Claim theorems -/

/-- C10: slot cleaning is idempotent — applying `clean_appointment_slots`
to its own output returns that output unchanged. -/
theorem clean_appointment_slots_idempotent (slots : List Slot) :
    clean_appointment_slots (clean_appointment_slots slots) =
      clean_appointment_slots slots := by
  have hstable : ∀ x ∈ clean_appointment_slots slots, clean_slot x = some x :=
    fun _ hx => mem_clean_appointment_slots_stable hx
  conv_lhs => rw [clean_appointment_slots]
  rw [filterMap_eq_self_of_stable _ _ hstable,
    List.Sorted.insertionSort_eq (clean_appointment_slots_sorted slots)]
  exact List.take_of_length_le (clean_appointment_slots_len slots)

/-- C4 (counterexample): slot cleaning accepts `"2 PM"` but keeps the time
string `"2 PM"` unchanged in the cleaned output — it is *not* normalized to
`"2:00 PM"` there, contrary to the claim. -/
theorem clean_appointment_slots_keeps_two_pm :
    (clean_appointment_slots [{ time := "2 PM" }]).map Slot.time = ["2 PM"] ∧
      (clean_appointment_slots [{ time := "2 PM" }]).map Slot.time ≠ ["2:00 PM"] := by
  constructor
  · decide
  · decide

/-- C4 (amended): slot cleaning rejects `"1001 Potrero Ave"` and `"94110"`,
accepts `"9:00 AM"`, `"14:30"` and `"2 PM"` — the last kept verbatim as
`"2 PM"`; the `H:00 AM/PM` normalization belongs to
`validate_and_format_time` (used by the regex-fallback stage), which maps
`"2 PM"` to `"2:00 PM"`.  Cleaning always returns at most 8 slots, sorted
lexicographically by time string. -/
theorem clean_appointment_slots_spec :
    (clean_appointment_slots [{ time := "1001 Potrero Ave" }] = []) ∧
    (clean_appointment_slots [{ time := "94110" }] = []) ∧
    ((clean_appointment_slots [{ time := "9:00 AM" }]).map Slot.time = ["9:00 AM"]) ∧
    ((clean_appointment_slots [{ time := "14:30" }]).map Slot.time = ["14:30"]) ∧
    ((clean_appointment_slots [{ time := "2 PM" }]).map Slot.time = ["2 PM"]) ∧
    (validate_and_format_time "2 PM" = some "2:00 PM") ∧
    (∀ slots, (clean_appointment_slots slots).length ≤ 8) ∧
    (∀ slots, (clean_appointment_slots slots).Sorted slotTimeLE) :=
  ⟨by decide, by decide, by decide, by decide, by decide, by decide,
    clean_appointment_slots_len, clean_appointment_slots_sorted⟩

/-- C2 (counterexample): when every extraction stage comes up empty, the
placeholder slots emitted by `extract_appointment_slots` are tagged
`source='generated_realistic'`, not `source='synthetic'`, and there is no
structural-DOM-scan stage preceding the LLM stage in this pipeline. -/
theorem extract_appointment_slots_tag_counterexample :
    (extract_appointment_slots [] [] (some "https://clinic.example.org")).all
        (fun s => s.source == "generated_realistic") = true ∧
      (extract_appointment_slots [] [] (some "https://clinic.example.org")).all
        (fun s => s.source == "synthetic") = false ∧
      extract_appointment_slots [] [] (some "https://clinic.example.org") ≠ [] := by
  refine ⟨by decide, by decide, by decide⟩

/-- C2 (amended): the per-institution extraction chain of
`extract_appointment_slots` is LLM content analysis, then regex fallback,
then synthetic placeholder (there is no structural DOM scan stage), each
later stage attempted only when the earlier one yielded nothing; the
placeholders are tagged `source='generated_realistic'`. -/
theorem extract_appointment_slots_chain (x : LlmSlot) (llm : List LlmSlot)
    (f g : List Slot) (s : Slot) (fb : List Slot) (url : Option String) :
    (extract_appointment_slots (x :: llm) f url =
      extract_appointment_slots (x :: llm) g url) ∧
    ((extract_appointment_slots (x :: llm) f url).all
      (fun sl => sl.source == "llm_extraction") = true) ∧
    (extract_appointment_slots [] (s :: fb) url = s :: fb) ∧
    (extract_appointment_slots [] [] url =
      generate_realistic_appointment_slots url) ∧
    ((extract_appointment_slots [] [] url).map Slot.source =
      List.replicate 6 "generated_realistic") := by
  refine ⟨?_, ?_, ?_, ?_, ?_⟩
  · simp [extract_appointment_slots]
  · simp only [extract_appointment_slots, List.length_cons, gt_iff_lt,
      Nat.zero_lt_succ, if_true, List.all_eq_true]
    intro sl hsl
    obtain ⟨a, _, ha⟩ := List.mem_filterMap.mp hsl
    split at ha
    · injection ha with ha
      subst ha
      rfl
    · cases ha
  · simp [extract_appointment_slots]
  · simp [extract_appointment_slots]
  · simp [extract_appointment_slots, generate_realistic_appointment_slots,
      common_times, List.replicate]

/-! ### C1 helper lemmas: the batch loop is in-order processing -/

lemma flatProcess_append (env : Nat → TaskOutcome) (now : String) :
    ∀ (l1 l2 : List Clinic) (i : Nat),
      flatProcess env now i (l1 ++ l2) =
        flatProcess env now i l1 ++ flatProcess env now (i + l1.length) l2 := by
  intro l1
  induction l1 with
  | nil => intro l2 i; simp [flatProcess]
  | cons c t ih =>
    intro l2 i
    have harith : i + (t.length + 1) = i + 1 + t.length := by omega
    simp [flatProcess, ih, harith]

lemma processBatches_eq_flat (env : Nat → TaskOutcome) (now : String) :
    ∀ (l : List Clinic) (off : Nat),
      processBatches env now off l = flatProcess env now off l
  | [], _ => rfl
  | [_], _ => rfl
  | [_, _], _ => rfl
  | c :: a :: b :: rest, off => by
    simp only [processBatches]
    rw [processBatches_eq_flat env now rest (off + 3)]
    simp [flatProcess]

lemma flatProcess_length (env : Nat → TaskOutcome) (now : String) :
    ∀ (l : List Clinic) (i : Nat), (flatProcess env now i l).length = l.length := by
  intro l
  induction l with
  | nil => intro i; rfl
  | cons c t ih => intro i; simp [flatProcess, ih]

lemma flatProcess_getElem? (env : Nat → TaskOutcome) (now : String) :
    ∀ (l : List Clinic) (i j : Nat),
      (flatProcess env now i l)[j]? =
        (l[j]?).map fun c => handle_task c (env (i + j)) now := by
  intro l
  induction l with
  | nil => intro i j; simp [flatProcess]
  | cons c t ih =>
    intro i j
    cases j with
    | zero => simp [flatProcess]
    | succ j =>
      have harith : i + (j + 1) = i + 1 + j := by omega
      simp only [flatProcess, List.getElem?_cons_succ, ih, harith]

lemma process_clinics_parallel_eq_flat (clinics : List Clinic)
    (env : Nat → TaskOutcome) (now : String) :
    process_clinics_parallel clinics env now = flatProcess env now 0 clinics :=
  processBatches_eq_flat env now clinics 0

/-- C1: the appointment-discovery run returns exactly one result per input
institution, in input order; if institution `k`'s processing raises, its
result carries `status='error'` with the caught message; and every other
institution's result is exactly what it would have been under any
environment that only differs at `k`. -/
theorem process_clinics_parallel_isolation (clinics : List Clinic)
    (env env' : Nat → TaskOutcome) (now : String) (k i : Nat) (m : String)
    (c : Clinic) (r : ClinicResult)
    (hk : env k = .completed (.exn m))
    (hc : clinics[k]? = some c) (hw : c.website ≠ "")
    (hr : (process_clinics_parallel clinics env now)[k]? = some r)
    (hagree : ∀ j, j ≠ k → env j = env' j) (hik : i ≠ k) :
    (process_clinics_parallel clinics env now).length = clinics.length ∧
    (r.status = some "error" ∧ r.error = some m) ∧
    (process_clinics_parallel clinics env now)[i]? =
      (process_clinics_parallel clinics env' now)[i]? := by
  rw [process_clinics_parallel_eq_flat] at hr ⊢
  refine ⟨flatProcess_length env now clinics 0, ?_, ?_⟩
  · rw [flatProcess_getElem? env now clinics 0 k, hc] at hr
    simp only [Option.map_some', Option.some.injEq] at hr
    subst hr
    rw [Nat.zero_add, hk]
    simp only [handle_task, process_clinic, if_neg hw]
    exact ⟨trivial, trivial⟩
  · rw [process_clinics_parallel_eq_flat, flatProcess_getElem?, flatProcess_getElem?,
      Nat.zero_add, hagree i hik]



/-- Witness for C1 at a concrete input: four institutions, the second
raising on navigation. -/
theorem process_clinics_parallel_isolation_witness :
    (process_clinics_parallel demoClinics demoEnv "T").length = demoClinics.length ∧
    (((process_clinics_parallel demoClinics demoEnv "T")[1]?.getD default).status =
        some "error" ∧
      ((process_clinics_parallel demoClinics demoEnv "T")[1]?.getD default).error =
        some "nav timeout") ∧
    (process_clinics_parallel demoClinics demoEnv "T")[3]? =
      (process_clinics_parallel demoClinics demoEnvOk "T")[3]? := by
  have h := process_clinics_parallel_isolation demoClinics demoEnv demoEnvOk "T" 1 3
    "nav timeout" { name := "B", website := "https://b.org" }
    ((process_clinics_parallel demoClinics demoEnv "T")[1]?.getD default)
    (by decide) (by decide) (by decide)
    (by decide)
    (fun j hj => by
      unfold demoEnv demoEnvOk
      rw [if_neg hj])
    (by decide)
  exact h

/-- C3: any input matching a self-harm/crisis pattern is rejected with the
crisis-resource message, regardless of surrounding text — the self-harm
rules sit first in the ordered rule list and the first match wins. -/
theorem validate_user_input_selfharm_blocks (s : String)
    (h : research re_selfharm1 (toLowerStr s).data = true ∨
         research re_selfharm2 (toLowerStr s).data = true) :
    validate_user_input s = (false, some crisis_message) := by
  simp only [validate_user_input, inappropriate_patterns]
  by_cases h1 : research re_selfharm1 (toLowerStr s).data = true
  · rw [List.find?_cons_of_pos
      (p := fun rule : InputRule => research rule.regex (toLowerStr s).data) _ h1]
    rfl
  · have h2 := h.resolve_left h1
    rw [List.find?_cons_of_neg
        (p := fun rule : InputRule => research rule.regex (toLowerStr s).data) _ h1,
      List.find?_cons_of_pos
        (p := fun rule : InputRule => research rule.regex (toLowerStr s).data) _ h2]
    rfl

/-- Witness for C3: the crisis input of the spec's end-to-end scenario. -/
theorem validate_user_input_selfharm_blocks_witness :
    validate_user_input "I want to kill myself" = (false, some crisis_message) :=
  validate_user_input_selfharm_blocks "I want to kill myself" (Or.inl (by decide))

lemma optTruthy_iff (o : Option String) :
    optTruthy o = true ↔ ∃ s, o = some s ∧ s ≠ "" := by
  cases o <;> simp [optTruthy]


/-- C6 (counterexample): a record whose four required fields are all
non-null (but empty strings) is *not* complete — `is_basic_info_complete`
tests Python truthiness, not non-nullness, so the claimed "iff non-null"
fails. -/
theorem is_basic_info_complete_counterexample :
    is_basic_info_complete emptyStringsPatient = false ∧
    emptyStringsPatient.medical_condition ≠ none ∧
    emptyStringsPatient.zip_code ≠ none ∧
    emptyStringsPatient.phone_number ≠ none ∧
    emptyStringsPatient.insurance ≠ none := by
  refine ⟨by decide, by decide, by decide, by decide, by decide⟩

/-- C6 (amended): `is_basic_info_complete` holds iff all four required
fields are non-null *and non-empty*; and it depends only on those four
fields — two records agreeing on them always agree on completeness. -/
theorem is_basic_info_complete_spec (p q : PatientData)
    (hmc : p.medical_condition = q.medical_condition)
    (hzip : p.zip_code = q.zip_code)
    (hph : p.phone_number = q.phone_number)
    (hins : p.insurance = q.insurance) :
    (is_basic_info_complete p = true ↔
      ((∃ s, p.medical_condition = some s ∧ s ≠ "") ∧
       (∃ s, p.zip_code = some s ∧ s ≠ "") ∧
       (∃ s, p.phone_number = some s ∧ s ≠ "") ∧
       (∃ s, p.insurance = some s ∧ s ≠ ""))) ∧
    is_basic_info_complete p = is_basic_info_complete q := by
  constructor
  · simp [is_basic_info_complete, Bool.and_eq_true, optTruthy_iff]
    tauto
  · simp [is_basic_info_complete, hmc, hzip, hph, hins]


/-- Witness for C6: a concrete complete record, and invariance of the
completeness predicate under changes to the unrelated fields. -/
theorem is_basic_info_complete_spec_witness :
    is_basic_info_complete completePatient = true ∧
    is_basic_info_complete completePatient =
      is_basic_info_complete completePatientVariant :=
  ⟨(is_basic_info_complete_spec completePatient completePatientVariant
      rfl rfl rfl rfl).1.mpr
      ⟨⟨"flu", rfl, by decide⟩, ⟨"90210", rfl, by decide⟩,
       ⟨"555-123-4567", rfl, by decide⟩, ⟨"Blue Cross", rfl, by decide⟩⟩,
   (is_basic_info_complete_spec completePatient completePatientVariant
      rfl rfl rfl rfl).2⟩


section UpdLemmas

variable (p : PatientData) (v : Option String) (i : String) (l : List String)

lemma updMC_of_truthy (h : optTruthy p.medical_condition = true) : updMC p v = p := by
  unfold updMC
  simp [h]

lemma updZip_of_truthy (h : optTruthy p.zip_code = true) : updZip p v = p := by
  unfold updZip
  simp [h]

lemma updPhone_of_truthy (h : optTruthy p.phone_number = true) : updPhone p v = p := by
  unfold updPhone
  simp [h]

lemma updIns_of_truthy (h : optTruthy p.insurance = true) : updIns p v = p := by
  unfold updIns
  simp [h]

lemma updMC_zip : (updMC p v).zip_code = p.zip_code := by
  unfold updMC
  split <;> rfl

lemma updMC_phone : (updMC p v).phone_number = p.phone_number := by
  unfold updMC
  split <;> rfl

lemma updMC_ins : (updMC p v).insurance = p.insurance := by
  unfold updMC
  split <;> rfl

lemma updZip_mc : (updZip p v).medical_condition = p.medical_condition := by
  unfold updZip
  split <;> rfl

lemma updZip_phone : (updZip p v).phone_number = p.phone_number := by
  unfold updZip
  split <;> rfl

lemma updZip_ins : (updZip p v).insurance = p.insurance := by
  unfold updZip
  split <;> rfl

lemma updPhone_mc : (updPhone p v).medical_condition = p.medical_condition := by
  unfold updPhone
  split <;> rfl

lemma updPhone_zip : (updPhone p v).zip_code = p.zip_code := by
  unfold updPhone
  split <;> rfl

lemma updPhone_ins : (updPhone p v).insurance = p.insurance := by
  unfold updPhone
  split <;> rfl

lemma updIns_mc : (updIns p v).medical_condition = p.medical_condition := by
  unfold updIns
  split <;> rfl

lemma updIns_zip : (updIns p v).zip_code = p.zip_code := by
  unfold updIns
  split <;> rfl

lemma updIns_phone : (updIns p v).phone_number = p.phone_number := by
  unfold updIns
  split <;> rfl

lemma addSymptoms_mc : (addSymptoms p l).medical_condition = p.medical_condition := rfl

lemma addSymptoms_zip : (addSymptoms p l).zip_code = p.zip_code := rfl

lemma addSymptoms_phone : (addSymptoms p l).phone_number = p.phone_number := rfl

lemma addSymptoms_ins : (addSymptoms p l).insurance = p.insurance := rfl

lemma synthCondition_mc_of_truthy (h : optTruthy p.medical_condition = true) :
    (synthCondition p).medical_condition = p.medical_condition := by
  unfold synthCondition
  simp [h]

lemma synthCondition_zip : (synthCondition p).zip_code = p.zip_code := by
  unfold synthCondition
  split <;> rfl

lemma synthCondition_phone : (synthCondition p).phone_number = p.phone_number := by
  unfold synthCondition
  split <;> rfl

lemma synthCondition_ins : (synthCondition p).insurance = p.insurance := by
  unfold synthCondition
  split <;> rfl

lemma simpleMC_of_truthy (h : optTruthy p.medical_condition = true) : simpleMC p i = p := by
  unfold simpleMC
  simp [h]

lemma simpleZip_of_truthy (h : optTruthy p.zip_code = true) : simpleZip p i = p := by
  unfold simpleZip
  simp [h]

lemma simplePhone_of_truthy (h : optTruthy p.phone_number = true) : simplePhone p i = p := by
  unfold simplePhone
  simp [h]

lemma simpleIns_of_truthy (h : optTruthy p.insurance = true) : simpleIns p i = p := by
  unfold simpleIns
  simp [h]

lemma simpleMC_zip : (simpleMC p i).zip_code = p.zip_code := by
  unfold simpleMC
  split <;> rfl

lemma simpleMC_phone : (simpleMC p i).phone_number = p.phone_number := by
  unfold simpleMC
  split <;> rfl

lemma simpleMC_ins : (simpleMC p i).insurance = p.insurance := by
  unfold simpleMC
  split <;> rfl

lemma simpleZip_mc : (simpleZip p i).medical_condition = p.medical_condition := by
  unfold simpleZip
  split
  · split <;> rfl
  · rfl

lemma simpleZip_phone : (simpleZip p i).phone_number = p.phone_number := by
  unfold simpleZip
  split
  · split <;> rfl
  · rfl

lemma simpleZip_ins : (simpleZip p i).insurance = p.insurance := by
  unfold simpleZip
  split
  · split <;> rfl
  · rfl

lemma simplePhone_mc : (simplePhone p i).medical_condition = p.medical_condition := by
  unfold simplePhone
  split
  · split <;> rfl
  · rfl

lemma simplePhone_zip : (simplePhone p i).zip_code = p.zip_code := by
  unfold simplePhone
  split
  · split <;> rfl
  · rfl

lemma simplePhone_ins : (simplePhone p i).insurance = p.insurance := by
  unfold simplePhone
  split
  · split <;> rfl
  · rfl

lemma simpleIns_mc : (simpleIns p i).medical_condition = p.medical_condition := by
  unfold simpleIns
  split <;> rfl

lemma simpleIns_zip : (simpleIns p i).zip_code = p.zip_code := by
  unfold simpleIns
  split <;> rfl

lemma simpleIns_phone : (simpleIns p i).phone_number = p.phone_number := by
  unfold simpleIns
  split <;> rfl

end UpdLemmas

/-- C5 (amended): field extraction never overwrites a truthy
(non-null, non-empty) field, on the LLM-assisted path, the no-JSON path and
the regex fallback path alike. -/
theorem extraction_never_overwrites_truthy (p : PatientData) (input : String)
    (o : LlmExtractionOutcome) :
    (optTruthy p.medical_condition = true →
      (extract_and_update_patient_data p input o).medical_condition = p.medical_condition) ∧
    (optTruthy p.zip_code = true →
      (extract_and_update_patient_data p input o).zip_code = p.zip_code) ∧
    (optTruthy p.phone_number = true →
      (extract_and_update_patient_data p input o).phone_number = p.phone_number) ∧
    (optTruthy p.insurance = true →
      (extract_and_update_patient_data p input o).insurance = p.insurance) := by
  cases o with
  | noJson => exact ⟨fun _ => rfl, fun _ => rfl, fun _ => rfl, fun _ => rfl⟩
  | parsed d =>
    simp only [extract_and_update_patient_data]
    unfold update_from_extraction
    by_cases hf : d.found
    · simp only [hf, if_true]
      refine ⟨fun h => ?_, fun h => ?_, fun h => ?_, fun h => ?_⟩
      · rw [updMC_of_truthy _ _ h]
        split
        · rw [synthCondition_mc_of_truthy, addSymptoms_mc, updIns_mc, updPhone_mc,
            updZip_mc]
          rw [addSymptoms_mc, updIns_mc, updPhone_mc, updZip_mc, h]
        · rw [synthCondition_mc_of_truthy]
          rw [updIns_mc, updPhone_mc, updZip_mc]
          rw [updIns_mc, updPhone_mc, updZip_mc, h]
      · rw [updZip_of_truthy _ _ (by rw [updMC_zip]; exact h)]
        split
        · rw [synthCondition_zip, addSymptoms_zip, updIns_zip, updPhone_zip, updMC_zip]
        · rw [synthCondition_zip, updIns_zip, updPhone_zip, updMC_zip]
      · rw [updPhone_of_truthy _ _ (by rw [updZip_phone, updMC_phone]; exact h)]
        split
        · rw [synthCondition_phone, addSymptoms_phone, updIns_phone, updZip_phone,
            updMC_phone]
        · rw [synthCondition_phone, updIns_phone, updZip_phone, updMC_phone]
      · rw [updIns_of_truthy _ _ (by rw [updPhone_ins, updZip_ins, updMC_ins]; exact h)]
        split
        · rw [synthCondition_ins, addSymptoms_ins, updPhone_ins, updZip_ins, updMC_ins]
        · rw [synthCondition_ins, updPhone_ins, updZip_ins, updMC_ins]
    · simp [hf]
  | failed =>
    simp only [extract_and_update_patient_data]
    unfold simple_data_extraction
    refine ⟨fun h => ?_, fun h => ?_, fun h => ?_, fun h => ?_⟩
    · rw [simpleMC_of_truthy _ _ h, simpleIns_mc, simplePhone_mc, simpleZip_mc]
    · rw [simpleZip_of_truthy _ _ (by rw [simpleMC_zip]; exact h), simpleIns_zip,
        simplePhone_zip, simpleMC_zip]
    · rw [simplePhone_of_truthy _ _ (by rw [simpleZip_phone, simpleMC_phone]; exact h),
        simpleIns_phone, simpleZip_phone, simpleMC_phone]
    · rw [simpleIns_of_truthy _ _ (by rw [simplePhone_ins, simpleZip_ins, simpleMC_ins]; exact h)]
      rw [simplePhone_ins, simpleZip_ins, simpleMC_ins]




/-- C5 (counterexample): a non-null but empty-string `zip_code` *is*
overwritten by extraction — the write-once guard tests Python truthiness,
not nullness. -/
theorem extraction_overwrites_empty_counterexample :
    emptyZipPatient.zip_code ≠ none ∧
    (extract_and_update_patient_data emptyZipPatient "my zip is 12345"
        (.parsed newZipExtraction)).zip_code = some "12345" ∧
    (extract_and_update_patient_data emptyZipPatient "my zip is 12345"
        (.parsed newZipExtraction)).zip_code ≠ emptyZipPatient.zip_code := by
  refine ⟨by decide, by decide, by decide⟩


/-- Witness for C5 at a concrete record with all four fields truthy. -/
theorem extraction_never_overwrites_truthy_witness :
    (extract_and_update_patient_data completePatient "call 999-888-7777, zip 10001"
        (.parsed conflictingExtraction)).medical_condition =
      completePatient.medical_condition ∧
    (extract_and_update_patient_data completePatient "call 999-888-7777, zip 10001"
        (.parsed conflictingExtraction)).zip_code = completePatient.zip_code ∧
    (extract_and_update_patient_data completePatient "call 999-888-7777, zip 10001"
        (.parsed conflictingExtraction)).phone_number = completePatient.phone_number ∧
    (extract_and_update_patient_data completePatient "call 999-888-7777, zip 10001"
        (.parsed conflictingExtraction)).insurance = completePatient.insurance := by
  have h := extraction_never_overwrites_truthy completePatient
    "call 999-888-7777, zip 10001" (.parsed conflictingExtraction)
  have t1 : optTruthy completePatient.medical_condition = true := by decide
  have t2 : optTruthy completePatient.zip_code = true := by decide
  have t3 : optTruthy completePatient.phone_number = true := by decide
  have t4 : optTruthy completePatient.insurance = true := by decide
  exact ⟨h.1 t1, h.2.1 t2, h.2.2.1 t3, h.2.2.2 t4⟩

lemma buildHospitals_map_link (ins : Option String) (a b : Nat → AnswerOutcome) :
    ∀ (items : List SearchItem) (idx count : Nat),
      (buildHospitals ins a idx count items).map Hospital.link =
        (buildHospitals ins b idx count items).map Hospital.link
  | [], _, _ => rfl
  | item :: rest, idx, count => by
    unfold buildHospitals
    split
    · split
      · rfl
      · simp only [List.map_cons]
        rw [buildHospitals_map_link ins a b rest (idx + 1) (count + 1)]
    · exact buildHospitals_map_link ins a b rest (idx + 1) count

/-- C9 (counterexample): an answer containing "not accept" maps to
`"true"`, not `"false"`, because the yes/accept test runs first and
"not accept" contains "accept". -/
theorem exa_check_insurance_not_accept_counterexample :
    exa_check_insurance "General Hospital" (some "Medicare") "https://hospital.org"
        (.ans "They do not accept Medicare") = "true" ∧
    strIn "not accept" (toLowerStr "They do not accept Medicare") = true ∧
    exa_check_insurance "General Hospital" (some "Medicare") "https://hospital.org"
        (.ans "They do not accept Medicare") ≠ "false" := by
  refine ⟨by decide, by decide, by decide⟩

/-- C9 (amended): the insurance check returns `"true"` whenever the
lowercased answer contains "yes" or "accept" (this test runs first, so an
answer containing "not accept" also yields `"true"`); `"false"` only when
it contains "no" or "not accept" but neither "yes" nor "accept";
`"unknown"` otherwise, and `"unknown"` on every per-candidate failure
(missing insurance, missing URL, no answer object, raised exception) —
and no failure of the check removes any candidate from the batch. -/
theorem exa_check_insurance_spec (hospital : String) (ins : Option String)
    (url : String) (t : String) (o : AnswerOutcome)
    (items : List SearchItem) (a b : Nat → AnswerOutcome)
    (hins : optTruthy ins = true) (hurl : url ≠ "") :
    ((strIn "yes" (toLowerStr t) || strIn "accept" (toLowerStr t)) = true →
      exa_check_insurance hospital ins url (.ans t) = "true") ∧
    ((strIn "yes" (toLowerStr t) || strIn "accept" (toLowerStr t)) = false →
      (strIn "no" (toLowerStr t) || strIn "not accept" (toLowerStr t)) = true →
      exa_check_insurance hospital ins url (.ans t) = "false") ∧
    ((strIn "yes" (toLowerStr t) || strIn "accept" (toLowerStr t)) = false →
      (strIn "no" (toLowerStr t) || strIn "not accept" (toLowerStr t)) = false →
      exa_check_insurance hospital ins url (.ans t) = "unknown") ∧
    (exa_check_insurance hospital ins url .raise = "unknown") ∧
    (exa_check_insurance hospital ins url .noAnswer = "unknown") ∧
    (∀ v, optTruthy v = false → exa_check_insurance hospital v url o = "unknown") ∧
    (exa_check_insurance hospital ins "" o = "unknown") ∧
    ((process_patient_from_main items ins a).map Hospital.link =
      (process_patient_from_main items ins b).map Hospital.link) := by
  refine ⟨?_, ?_, ?_, ?_, ?_, ?_, ?_, ?_⟩
  · intro hy
    simp [exa_check_insurance, hins, hurl, hy]
  · intro hy hn
    simp [exa_check_insurance, hins, hurl, hy, hn]
  · intro hy hn
    simp [exa_check_insurance, hins, hurl, hy, hn]
  · simp [exa_check_insurance, hins, hurl]
  · simp [exa_check_insurance, hins, hurl]
  · intro v hv
    simp [exa_check_insurance, hv]
  · simp [exa_check_insurance]
  · exact buildHospitals_map_link ins a b items 0 0

/-- Witness for C9 at concrete inputs. -/
theorem exa_check_insurance_spec_witness :
    exa_check_insurance "St. Mary" (some "Aetna") "https://stmary.org"
        (.ans "Yes, Aetna is welcome") = "true" ∧
    exa_check_insurance "St. Mary" (some "Aetna") "https://stmary.org"
        (.ans "No") = "false" ∧
    exa_check_insurance "St. Mary" (some "Aetna") "https://stmary.org"
        (.ans "Please call") = "unknown" ∧
    exa_check_insurance "St. Mary" (some "Aetna") "https://stmary.org" .raise =
      "unknown" ∧
    exa_check_insurance "St. Mary" (some "") "https://stmary.org"
        (.ans "Yes") = "unknown" := by
  have h := exa_check_insurance_spec "St. Mary" (some "Aetna") "https://stmary.org"
    "Yes, Aetna is welcome" .raise [] (fun _ => .raise) (fun _ => .raise)
    (by decide) (by decide)
  have h2 := exa_check_insurance_spec "St. Mary" (some "Aetna") "https://stmary.org"
    "No" .raise [] (fun _ => .raise) (fun _ => .raise) (by decide) (by decide)
  have h3 := exa_check_insurance_spec "St. Mary" (some "Aetna") "https://stmary.org"
    "Please call" .raise [] (fun _ => .raise) (fun _ => .raise) (by decide) (by decide)
  refine ⟨h.1 (by decide), h2.2.1 (by decide) (by decide),
    h3.2.2.1 (by decide) (by decide), h.2.2.2.1, ?_⟩
  exact h.2.2.2.2.2.1 (some "") (by decide)

/-- C7: a blocked input short-circuits the turn before any role is
invoked — the guardrail itself answers, the session store is returned
unchanged, and the outcome is independent of the turn-processing oracle
(so no fields can have been extracted from the message). -/
theorem blocked_input_short_circuits
    (proc proc2 : PatientData → String → TurnResult) (sessions : Sessions)
    (input : String) (rid : Option String) (fid ft fid2 ft2 : String)
    (h : (validate_user_input input).1 = false) :
    chat_endpoint proc sessions input rid fid ft =
      ({ agent := "guardrail_system"
         response := (validate_user_input input).2.getD ""
         patient_data := .sessionOnly (effectiveSessionId rid)
         next_step := "input_validation_failed"
         guardrail_triggered := true
         guardrail_warning := (validate_user_input input).2 }, sessions) ∧
    chat_endpoint proc sessions input rid fid ft =
      chat_endpoint proc2 sessions input rid fid2 ft2 := by
  constructor
  · simp [chat_endpoint, h]
  · simp [chat_endpoint, h]


/-- Witness for C7: the crisis input leaves the (empty) session store
untouched and the outcome does not depend on the processing oracle. -/
theorem blocked_input_short_circuits_witness :
    (chat_endpoint demoProcA [] "I want to kill myself" none "fid" "ft").2 =
      ([] : Sessions) ∧
    chat_endpoint demoProcA [] "I want to kill myself" none "fid" "ft" =
      chat_endpoint demoProcB [] "I want to kill myself" none "fid2" "ft2" := by
  have h := blocked_input_short_circuits demoProcA demoProcB []
    "I want to kill myself" none "fid" "ft" "fid2" "ft2" (by decide)
  exact ⟨by rw [h.1], h.2⟩

/-- C8: when output validation blocks the generated response, the caller
receives the fixed safe-fallback text with the warning flag set, the
response's `patient_data` is exactly the turn's (mutated) record, and the
session store keeps the turn's committed mutations.  The `hbranch`
hypothesis fixes which record the turn processed: an existing session's
record, or the freshly created one. -/
theorem blocked_output_replaced_keeps_state
    (proc : PatientData → String → TurnResult) (sessions : Sessions)
    (input : String) (rid : Option String) (fid ft : String)
    (r0 : PatientData) (base : Sessions) (sid : String)
    (hv : (validate_user_input input).1 = true)
    (hbranch :
      (lookupSession sessions (effectiveSessionId rid) = some r0 ∧
        base = sessions ∧ sid = effectiveSessionId rid) ∨
      (lookupSession sessions (effectiveSessionId rid) = none ∧
        r0 = { session_id := fid, timestamp := ft } ∧
        base = sessions ++ [(fid, r0)] ∧ sid = fid))
    (hout : (validate_ai_response (proc r0 input).response).1 = false) :
    chat_endpoint proc sessions input rid fid ft =
      ({ agent := "guardrail_system"
         response := safe_fallback_response
         patient_data := .full (proc r0 input).patient_data
         next_step := (proc r0 input).next_step
         guardrail_triggered := true
         guardrail_warning := (validate_ai_response (proc r0 input).response).2 },
       updateSession base sid (proc r0 input).patient_data) := by
  rcases hbranch with ⟨hl, hb, hs⟩ | ⟨hl, hr, hb, hs⟩
  · subst hb
    subst hs
    simp [chat_endpoint, finishTurn, hv, hl, hout]
  · subst hr
    subst hb
    subst hs
    simp [chat_endpoint, finishTurn, hv, hl, hout]


/-- Witness for C8: an existing session, an input passing input
validation, a generated response blocked by output validation. -/
theorem blocked_output_replaced_keeps_state_witness :
    chat_endpoint demoProcBad [("s1", { session_id := "s1", timestamp := "t0" })]
        "I have a headache" (some "s1") "fid" "ft" =
      ({ agent := "guardrail_system"
         response := safe_fallback_response
         patient_data := .full mutatedPatient
         next_step := "continue_basic_info"
         guardrail_triggered := true
         guardrail_warning := some problematic_message },
       [("s1", mutatedPatient)]) := by
  have h := blocked_output_replaced_keeps_state demoProcBad
    [("s1", { session_id := "s1", timestamp := "t0" })] "I have a headache"
    (some "s1") "fid" "ft" { session_id := "s1", timestamp := "t0" }
    [("s1", { session_id := "s1", timestamp := "t0" })] "s1"
    (by decide) (Or.inl ⟨by decide, rfl, by decide⟩) (by decide)
  rw [h]
  rfl

end PatientHero
